import Mathlib

/-!
Verification of the replication core in vrr.go (a Viewstamped Replication
replica). The definitions below are a shallow embedding of the Go source:

* Machine integers (Go int) are modelled as Int; no arithmetic here comes
  near 64-bit overflow, so no modular reduction is applied.
* The configuration map is used by the source only through len(configuration)
  and for fan-out, so it is modelled by its size N.
* The client table map[int]clientTableEntry is modelled as an association
  list; a read of an absent key yields the Go zero value (reqNum = 0).
* time.Time timestamps (viewChangeResetEvent) are modelled as an abstract
  Int clock value passed to each handler as the parameter now.
* The reply structs start from their Go zero values; fields the source
  never sets stay at the zero value (IsReplied = false et cetera).
* The asynchronous PrepareOK reply collection in primaryBlastPrepare is
  modelled as a left fold over the list of IsReplied values of the replies
  that arrive (a transport error means the reply is absent from the list);
  the commit channel is modelled by the list of emitted CommitEntry values.
-/

namespace VRR

/-- Operation payloads are interface values in the Go source, uninterpreted
by the core; they are modelled as plain integers. -/
abbrev Op := Int

/-- Log entry, vrr.go opLogEntry. -/
structure OpLogEntry where
  opID : Int
  operation : Op
deriving DecidableEq

/-- Client request, vrr.go clientRequest. -/
structure ClientRequest where
  clientID : Int
  reqNum : Int
  reqOp : Op
deriving DecidableEq

/-- Client table entry, vrr.go clientTableEntry (the resp field is never
written by the modelled code paths and is omitted). -/
structure ClientTableEntry where
  reqNum : Int
  reqOp : Op
deriving DecidableEq

/-- Replica status enumeration, vrr.go ReplicaStatus. -/
inductive ReplicaStatus where
  | Normal
  | Recovery
  | ViewChange
  | Transitioning
  | Dead
  | DoViewChange
  | StartView
deriving DecidableEq

/-- Entry emitted on the commit channel, vrr.go CommitEntry. -/
structure CommitEntry where
  ViewNum : Int
  OpNum : Int
  CommitNum : Int
  ClientReq : ClientRequest
  Resp : Option Op
deriving DecidableEq

/-- Replica state, vrr.go Replica. N stands for len(configuration). -/
structure Replica where
  ID : Int
  N : Nat
  oldViewNum : Int
  viewNum : Int
  commitNum : Int
  opNum : Int
  opLog : List OpLogEntry
  primaryID : Int
  doViewChangeCount : Int
  tempViewNum : Int
  tempOpLog : List OpLogEntry
  tempOpNum : Int
  tempCommitNum : Int
  status : ReplicaStatus
  clientTable : List (Int × ClientTableEntry)
  viewChangeResetEvent : Int
deriving DecidableEq

/-- Go map read with zero value for an absent key. -/
def ctLookup (t : List (Int × ClientTableEntry)) (c : Int) : ClientTableEntry :=
  match t.find? (fun p => p.1 == c) with
  | some p => p.2
  | none => { reqNum := 0, reqOp := 0 }

/-- Go map write: at most one entry per key. -/
def ctInsert (t : List (Int × ClientTableEntry)) (c : Int) (e : ClientTableEntry) :
    List (Int × ClientTableEntry) :=
  (c, e) :: t.filter (fun p => !(p.1 == c))

/-- vrr.go NewReplica: fields not assigned there keep the Go zero value
(viewNum, commitNum, opNum, primaryID, temps all 0; empty log and table). -/
def NewReplica (id : Int) (n : Nat) (now : Int) : Replica :=
  { ID := id
    N := n
    oldViewNum := -1
    viewNum := 0
    commitNum := 0
    opNum := 0
    opLog := []
    primaryID := 0
    doViewChangeCount := 0
    tempViewNum := 0
    tempOpLog := []
    tempOpNum := 0
    tempCommitNum := 0
    status := .Normal
    clientTable := []
    viewChangeResetEvent := now }

/-- vrr.go Stop. -/
def Replica.Stop (r : Replica) : Replica :=
  { r with status := .Dead }

/-- Zero value of PrepareOKReply (Go var reply). -/
structure PrepareArgs where
  ViewNum : Int
  OpNum : Int
  CommitNum : Int
  ClientMessage : ClientRequest
deriving DecidableEq

structure PrepareOKReply where
  IsReplied : Bool
  ViewNum : Int
  OpNum : Int
  ReplicaID : Int
  Status : ReplicaStatus
deriving DecidableEq

def zeroPrepareOKReply : PrepareOKReply :=
  { IsReplied := false, ViewNum := 0, OpNum := 0, ReplicaID := 0, Status := .Normal }

/-- vrr.go Replica.Prepare. The source tests r.viewNum < args.ViewNum,
then == , then > in three sequential if blocks; since the first block only
writes status (never viewNum), the three conditions are mutually exclusive
on the entry state and the sequence is written here as nested ifs. The gap
branch (opNum not strictly consecutive) returns before the commit-adoption
TODO, which is a stub with no state effect in the source anyway. -/
def Replica.Prepare (r : Replica) (args : PrepareArgs) (now : Int) :
    Replica × PrepareOKReply :=
  if r.status = .Dead then (r, zeroPrepareOKReply)
  else if r.viewNum < args.ViewNum then
    ({ r with status := .Recovery }, zeroPrepareOKReply)
  else if r.viewNum = args.ViewNum then
    if r.opNum ≠ args.OpNum - 1 then
      ({ r with status := .Recovery }, zeroPrepareOKReply)
    else
      ({ r with
          viewChangeResetEvent := now
          opNum := r.opNum + 1
          opLog := r.opLog ++ [{ opID := (r.opLog.length : Int),
                                 operation := args.ClientMessage.reqOp }]
          clientTable := ctInsert r.clientTable args.ClientMessage.clientID
            { reqNum := args.ClientMessage.reqNum, reqOp := args.ClientMessage.reqOp } },
       { IsReplied := true, ViewNum := r.viewNum, OpNum := r.opNum + 1,
         ReplicaID := r.ID, Status := r.status })
  else (r, zeroPrepareOKReply)

structure CommitArgs where
  ViewNum : Int
  CommitNum : Int
deriving DecidableEq

structure CommitReply where
  IsReplied : Bool
  ReplicaID : Int
deriving DecidableEq

/-- vrr.go Replica.Commit: after the Dead check it unconditionally refreshes
viewChangeResetEvent; the commit-execution TODO is a stub, and the reply is
never written (it keeps its zero value). -/
def Replica.Commit (r : Replica) (_args : CommitArgs) (now : Int) :
    Replica × CommitReply :=
  if r.status = .Dead then (r, { IsReplied := false, ReplicaID := 0 })
  else ({ r with viewChangeResetEvent := now }, { IsReplied := false, ReplicaID := 0 })

structure StartViewArgs where
  ViewNum : Int
  OpLog : List OpLogEntry
  OpNum : Int
  PrimaryID : Int
deriving DecidableEq

structure StartViewReply where
  IsReplied : Bool
  ReplicaID : Int
deriving DecidableEq

/-- vrr.go Replica.StartView. -/
def Replica.StartView (r : Replica) (args : StartViewArgs) :
    Replica × StartViewReply :=
  if r.status = .Dead then (r, { IsReplied := false, ReplicaID := 0 })
  else
    ({ r with opLog := args.OpLog, opNum := args.OpNum, viewNum := args.ViewNum,
              primaryID := args.PrimaryID, status := .Normal },
     { IsReplied := true, ReplicaID := r.ID })

structure StartViewChangeArgs where
  ViewNum : Int
  ReplicaID : Int
deriving DecidableEq

structure StartViewChangeReply where
  IsReplied : Bool
  ReplicaID : Int
deriving DecidableEq

/-- vrr.go Replica.StartViewChange. -/
def Replica.StartViewChange (r : Replica) (args : StartViewChangeArgs) (now : Int) :
    Replica × StartViewChangeReply :=
  if r.status = .Dead then (r, { IsReplied := false, ReplicaID := 0 })
  else if args.ViewNum > r.viewNum then
    ({ r with status := .ViewChange, oldViewNum := r.viewNum, viewNum := args.ViewNum,
              viewChangeResetEvent := now },
     { IsReplied := true, ReplicaID := r.ID })
  else if args.ViewNum = r.viewNum then
    (r, { IsReplied := true, ReplicaID := r.ID })
  else (r, { IsReplied := false, ReplicaID := 0 })

/-- vrr.go initiateStartView (state effects under the lock: status and
timer reset; the spawned timer task has no immediate state effect). -/
def Replica.initiateStartView (r : Replica) (now : Int) : Replica :=
  { r with status := .StartView, viewChangeResetEvent := now }

/-- vrr.go initiateDoViewChange. -/
def Replica.initiateDoViewChange (r : Replica) (now : Int) : Replica :=
  { r with status := .DoViewChange, viewChangeResetEvent := now }

/-- vrr.go initiateViewChange. -/
def Replica.initiateViewChange (r : Replica) (now : Int) : Replica :=
  { r with status := .ViewChange, doViewChangeCount := 0, viewNum := r.viewNum + 1,
           viewChangeResetEvent := now }

/-- vrr.go nextPrimary: sentinel wrap at len(config)+1. -/
def nextPrimary (primaryID : Int) (n : Nat) : Int :=
  if primaryID + 1 = (n : Int) + 1 then 0 else primaryID + 1

/-- vrr.go sendDoViewChange, local state effect only: the self branch
increments doViewChangeCount; the remote branch sends an RPC and changes
nothing locally. -/
def Replica.sendDoViewChange (r : Replica) : Replica :=
  if nextPrimary r.primaryID r.N = r.ID then
    { r with doViewChangeCount := r.doViewChangeCount + 1 }
  else r

structure DoViewChangeArgs where
  ViewNum : Int
  OldViewNum : Int
  CommitNum : Int
  OpNum : Int
  OpLog : List OpLogEntry
deriving DecidableEq

structure DoViewChangeReply where
  IsReplied : Bool
  ReplicaID : Int
deriving DecidableEq

/-- Aggregation block of vrr.go Replica.DoViewChange (the body of the
args.ViewNum == r.viewNum branch). The conditions read only oldViewNum,
opNum, commitNum and viewNum, none of which the block writes, so the three
sequential updates are expressed as one record update. -/
def dvcAggregate (r : Replica) (args : DoViewChangeArgs) : Replica :=
  if args.ViewNum = r.viewNum then
    { r with
        doViewChangeCount := r.doViewChangeCount + 1
        tempViewNum :=
          if args.OldViewNum ≥ r.oldViewNum ∧ args.OpNum > r.opNum then args.ViewNum
          else r.tempViewNum
        tempOpNum :=
          if args.OldViewNum ≥ r.oldViewNum ∧ args.OpNum > r.opNum then
            (args.OpLog.length : Int)
          else r.tempOpNum
        tempOpLog :=
          if args.OldViewNum ≥ r.oldViewNum ∧ args.OpNum > r.opNum then args.OpLog
          else r.tempOpLog
        tempCommitNum :=
          if args.CommitNum ≥ r.commitNum then args.CommitNum else r.tempCommitNum }
  else r

/-- Quorum block of vrr.go Replica.DoViewChange: when the count crosses
len(configuration)/2 + 1 and status is not StartView, the temps are adopted,
status is set to Normal and primaryID to the own ID, and initiateStartView
then moves status to StartView. -/
def dvcQuorumCheck (r : Replica) (now : Int) : Replica × DoViewChangeReply :=
  if r.doViewChangeCount > ((r.N / 2 : Nat) : Int) + 1 ∧ r.status ≠ .StartView then
    (Replica.initiateStartView
      { r with viewNum := r.tempViewNum, opNum := r.tempOpNum, opLog := r.tempOpLog,
               commitNum := r.tempCommitNum, status := .Normal, primaryID := r.ID }
      now,
     { IsReplied := false, ReplicaID := 0 })
  else (r, { IsReplied := false, ReplicaID := 0 })

/-- vrr.go Replica.DoViewChange. -/
def Replica.DoViewChange (r : Replica) (args : DoViewChangeArgs) (now : Int) :
    Replica × DoViewChangeReply :=
  if r.status = .Dead then (r, { IsReplied := false, ReplicaID := 0 })
  else dvcQuorumCheck (dvcAggregate r args) now

/-- State carried through the PrepareOK reply loop of primaryBlastPrepare:
the quorum counter, the commitedAlready latch (spelled as in the source)
and the CommitEntry values pushed onto the commit channel. -/
structure BlastState where
  replica : Replica
  count : Int
  commitedAlready : Bool
  emitted : List CommitEntry
deriving DecidableEq

/-- One PrepareOK reply handled by the closure in vrr.go primaryBlastPrepare.
The savedViewNum, savedOpNum, savedCommitNum snapshot is taken at broadcast
time; the counter is incremented only when IsReplied holds and the latch is
still clear, and the first crossing of replies*2 > N+1 advances commitNum,
sets the latch and emits one CommitEntry carrying the saved (pre-advance)
commit number. -/
def blastStep (savedViewNum savedOpNum savedCommitNum : Int)
    (newRequest : ClientRequest) (s : BlastState) (isReplied : Bool) : BlastState :=
  if isReplied = true ∧ s.commitedAlready = false then
    if (s.count + 1) * 2 > (s.replica.N : Int) + 1 then
      { replica := { s.replica with commitNum := s.replica.commitNum + 1 }
        count := s.count + 1
        commitedAlready := true
        emitted :=
          if s.replica.commitNum + 1 ≠ savedCommitNum then
            s.emitted ++ [{ ViewNum := savedViewNum, OpNum := savedOpNum,
                            CommitNum := savedCommitNum, ClientReq := newRequest,
                            Resp := none }]
          else s.emitted }
    else { s with count := s.count + 1 }
  else s

/-- vrr.go primaryBlastPrepare over a given arrival order of replies.
The counter starts at 1 (self). -/
def primaryBlastPrepareS (r : Replica) (newRequest : ClientRequest)
    (replies : List Bool) : BlastState :=
  replies.foldl (blastStep r.viewNum r.opNum r.commitNum newRequest)
    { replica := r, count := 1, commitedAlready := false, emitted := [] }

def primaryBlastPrepare (r : Replica) (newRequest : ClientRequest)
    (replies : List Bool) : Replica × List CommitEntry :=
  ((primaryBlastPrepareS r newRequest replies).replica,
   (primaryBlastPrepareS r newRequest replies).emitted)

/-- Accept path of vrr.go Submit before the Prepare broadcast: append,
opNum increment, client table update. -/
def submitAccept (r : Replica) (req : ClientRequest) : Replica :=
  { r with
      opLog := r.opLog ++ [{ opID := (r.opLog.length : Int), operation := req.reqOp }]
      opNum := r.opNum + 1
      clientTable := ctInsert r.clientTable req.clientID
        { reqNum := req.reqNum, reqOp := req.reqOp } }

/-- vrr.go Submit, including the primaryBlastPrepare it triggers on accept
(the broadcast is called only from Submit). -/
def Replica.Submit (r : Replica) (req : ClientRequest) (replies : List Bool) :
    Replica × Bool × List CommitEntry :=
  if r.ID ≠ r.primaryID then (r, false, [])
  else if r.status ≠ .Normal then (r, false, [])
  else if req.reqNum ≤ (ctLookup r.clientTable req.clientID).reqNum then (r, false, [])
  else
    ((primaryBlastPrepare (submitAccept r req) req replies).1, true,
     (primaryBlastPrepare (submitAccept r req) req replies).2)

/-- Invariant of claim C7: commitNum ≤ opNum and opNum = len(log). -/
@[reducible] def replicaInv (r : Replica) : Prop :=
  r.commitNum ≤ r.opNum ∧ r.opNum = (r.opLog.length : Int)

/-- Number of IsReplied = true replies in an arrival list. -/
def countTrue (l : List Bool) : Int :=
  ((l.filter (fun b => b)).length : Int)

lemma countTrue_nonneg (l : List Bool) : 0 ≤ countTrue l := by
  unfold countTrue
  exact Int.ofNat_nonneg _

lemma countTrue_false_cons (l : List Bool) :
    countTrue (false :: l) = countTrue l := by
  simp [countTrue, List.filter_cons]

lemma countTrue_true_cons (l : List Bool) :
    countTrue (true :: l) = 1 + countTrue l := by
  simp only [countTrue, List.filter_cons]
  push_cast [List.length_cons]
  ring

/-- Characterization of a reply loop in progress: t replies with
IsReplied = true have been consumed so far. Before the latch the replica is
untouched, nothing was emitted and the counter equals 1 + t; after the
latch the replica has commitNum advanced by exactly 1 and exactly one
CommitEntry carrying the saved snapshot was emitted; the latch is set
precisely when some true reply pushed the counter across 2*count > N+1. -/
def blastInv (r : Replica) (req : ClientRequest) (s : BlastState) (t : Int) : Prop :=
  0 ≤ t
  ∧ (s.commitedAlready = true ↔ 1 ≤ t ∧ 2 * (1 + t) > (r.N : Int) + 1)
  ∧ (s.commitedAlready = false → s.replica = r ∧ s.emitted = [] ∧ s.count = 1 + t)
  ∧ (s.commitedAlready = true →
      s.replica = { r with commitNum := r.commitNum + 1 }
      ∧ s.emitted = [{ ViewNum := r.viewNum, OpNum := r.opNum, CommitNum := r.commitNum,
                       ClientReq := req, Resp := none }])

lemma blastStep_inv_false (r : Replica) (req : ClientRequest) (s : BlastState)
    (t : Int) (h : blastInv r req s t) :
    blastInv r req (blastStep r.viewNum r.opNum r.commitNum req s false) t := by
  unfold blastStep
  rw [if_neg (by simp)]
  exact h

lemma blastStep_inv_true (r : Replica) (req : ClientRequest) (s : BlastState)
    (t : Int) (h : blastInv r req s t) :
    blastInv r req (blastStep r.viewNum r.opNum r.commitNum req s true) (t + 1) := by
  obtain ⟨ht, hiff, hfalse, htrue⟩ := h
  cases hC : s.commitedAlready with
  | true =>
    unfold blastStep
    rw [if_neg (by simp [hC])]
    obtain ⟨h1, h2⟩ := hiff.mp hC
    refine ⟨by omega, ?_, ?_, htrue⟩
    · rw [hC]
      exact ⟨fun _ => ⟨by omega, by omega⟩, fun _ => rfl⟩
    · intro hcontra
      rw [hC] at hcontra
      cases hcontra
  | false =>
    obtain ⟨hr, he, hcnt⟩ := hfalse hC
    unfold blastStep
    rw [if_pos ⟨rfl, hC⟩]
    by_cases hcross : (s.count + 1) * 2 > (s.replica.N : Int) + 1
    · rw [if_pos hcross]
      rw [hr, hcnt] at hcross
      refine ⟨by omega, ?_, ?_, ?_⟩
      · exact ⟨fun _ => ⟨by omega, by omega⟩, fun _ => rfl⟩
      · intro hcontra
        exact absurd hcontra (by simp)
      · intro _
        constructor
        · show { s.replica with commitNum := s.replica.commitNum + 1 } = _
          rw [hr]
        · show (if s.replica.commitNum + 1 ≠ r.commitNum then
              s.emitted ++ [{ ViewNum := r.viewNum, OpNum := r.opNum,
                              CommitNum := r.commitNum, ClientReq := req,
                              Resp := none }]
            else s.emitted) = _
          rw [hr, he]
          rw [if_pos (by omega : r.commitNum + 1 ≠ r.commitNum)]
          simp
    · rw [if_neg hcross]
      rw [hr, hcnt] at hcross
      refine ⟨by omega, ?_, ?_, ?_⟩
      · show s.commitedAlready = true ↔ _
        rw [hC]
        exact ⟨(fun hcontra => by cases hcontra), fun h => absurd h.2 (by omega)⟩
      · intro _
        refine ⟨hr, he, ?_⟩
        show s.count + 1 = 1 + (t + 1)
        omega
      · intro hcontra
        show s.replica = _ ∧ s.emitted = _
        rw [show (({ s with count := s.count + 1 } : BlastState).commitedAlready)
              = s.commitedAlready from rfl, hC] at hcontra
        cases hcontra

lemma blastFoldl_inv (r : Replica) (req : ClientRequest) (replies : List Bool) :
    ∀ (s : BlastState) (t : Int), blastInv r req s t →
      blastInv r req
        (replies.foldl (blastStep r.viewNum r.opNum r.commitNum req) s)
        (t + countTrue replies) := by
  induction replies with
  | nil =>
    intro s t h
    simpa [countTrue] using h
  | cons b l ih =>
    intro s t h
    simp only [List.foldl_cons]
    cases b with
    | false =>
      have h2 := ih _ _ (blastStep_inv_false r req s t h)
      rw [countTrue_false_cons]
      exact h2
    | true =>
      have h2 := ih _ _ (blastStep_inv_true r req s t h)
      rw [countTrue_true_cons, show t + (1 + countTrue l) = (t + 1) + countTrue l by ring]
      exact h2

lemma primaryBlastPrepareS_inv (r : Replica) (req : ClientRequest)
    (replies : List Bool) :
    blastInv r req (primaryBlastPrepareS r req replies) (countTrue replies) := by
  have h0 : blastInv r req
      { replica := r, count := 1, commitedAlready := false, emitted := [] } 0 := by
    refine ⟨le_refl 0, ?_, fun _ => ⟨rfl, rfl, rfl⟩, fun hc => by cases hc⟩
    constructor
    · intro hc
      cases hc
    · intro ⟨h1, _⟩
      omega
  have h := blastFoldl_inv r req replies _ 0 h0
  rw [zero_add] at h
  exact h

/-- The reply loop touches only commitNum on the replica, and advances it
by at most one. -/
lemma primaryBlastPrepare_replica_cases (r : Replica) (req : ClientRequest)
    (replies : List Bool) :
    (primaryBlastPrepare r req replies).1 = r
    ∨ (primaryBlastPrepare r req replies).1 = { r with commitNum := r.commitNum + 1 } := by
  have h := primaryBlastPrepareS_inv r req replies
  unfold primaryBlastPrepare
  cases hC : (primaryBlastPrepareS r req replies).commitedAlready with
  | false => exact Or.inl (h.2.2.1 hC).1
  | true => exact Or.inr (h.2.2.2 hC).1

/-- C10: on every non-Dead replica state, the StartView handler sets exactly
opLog, opNum, viewNum and primaryID from the message and status to Normal,
leaving commitNum, clientTable, oldViewNum, doViewChangeCount and
viewChangeResetEvent unchanged, regardless of the message contents; the
reply carries IsReplied = true and the own replica ID. -/
theorem startView_frame (r : Replica) (args : StartViewArgs)
    (hd : r.status ≠ .Dead) :
    (r.StartView args).1
      = { r with opLog := args.OpLog, opNum := args.OpNum, viewNum := args.ViewNum,
                 primaryID := args.PrimaryID, status := .Normal }
    ∧ (r.StartView args).2 = { IsReplied := true, ReplicaID := r.ID } := by
  unfold Replica.StartView
  rw [if_neg hd]
  exact ⟨rfl, rfl⟩

/-- Witness for C10 at a concrete non-Dead replica and message. -/
theorem startView_frame_witness :
    ((NewReplica 1 3 0).StartView
        { ViewNum := 2, OpLog := [{ opID := 0, operation := 7 }], OpNum := 1,
          PrimaryID := 2 }).1.commitNum = 0
    ∧ ((NewReplica 1 3 0).StartView
        { ViewNum := 2, OpLog := [{ opID := 0, operation := 7 }], OpNum := 1,
          PrimaryID := 2 }).1.viewNum = 2 := by
  have h := startView_frame (NewReplica 1 3 0)
    { ViewNum := 2, OpLog := [{ opID := 0, operation := 7 }], OpNum := 1,
      PrimaryID := 2 } (by decide)
  rw [h.1]
  exact ⟨rfl, rfl⟩

/-- C9 counterexample: the Commit handler never inspects args.ViewNum, so a
stale Commit (args.ViewNum = 0 below the local viewNum = 1) still refreshes
viewChangeResetEvent, against the claim that it is dropped with no state
change. -/
theorem staleCommit_refreshes_timer :
    (((NewReplica 1 3 0).StartViewChange { ViewNum := 1, ReplicaID := 2 } 1).1.viewNum = 1)
    ∧ ((((NewReplica 1 3 0).StartViewChange { ViewNum := 1, ReplicaID := 2 } 1).1.Commit
          { ViewNum := 0, CommitNum := 0 } 99).1.viewChangeResetEvent = 99)
    ∧ (((NewReplica 1 3 0).StartViewChange { ViewNum := 1, ReplicaID := 2 } 1).1.viewChangeResetEvent
          = 1) := by
  decide

/-- C9 (amended): a Prepare with args.ViewNum < local.viewNum is dropped with
no state change and an IsReplied = false reply; the Commit handler, however,
refreshes viewChangeResetEvent on every non-Dead replica regardless of the
message view (and changes nothing else). -/
theorem stale_message_drop (r : Replica) (now : Int) :
    (∀ args : PrepareArgs, args.ViewNum < r.viewNum →
        (r.Prepare args now).1 = r ∧ (r.Prepare args now).2.IsReplied = false)
    ∧ (∀ args : CommitArgs, r.status ≠ .Dead →
        (r.Commit args now).1 = { r with viewChangeResetEvent := now }) := by
  constructor
  · intro args hlt
    unfold Replica.Prepare
    split
    · exact ⟨rfl, rfl⟩
    · rw [if_neg (by omega), if_neg (by omega)]
      exact ⟨rfl, rfl⟩
  · intro args hdead
    unfold Replica.Commit
    rw [if_neg hdead]

/-- Witness for C9 at a concrete replica and stale Prepare. -/
theorem stale_message_drop_witness :
    ((NewReplica 1 3 0).Prepare
        { ViewNum := -1, OpNum := 1, CommitNum := 0,
          ClientMessage := { clientID := 1, reqNum := 1, reqOp := 7 } } 5).1
      = NewReplica 1 3 0 := by
  exact ((stale_message_drop (NewReplica 1 3 0) 5).1
    { ViewNum := -1, OpNum := 1, CommitNum := 0,
      ClientMessage := { clientID := 1, reqNum := 1, reqOp := 7 } } (by decide)).1

/-- C8: for primaryID = N - 1 = 2 with N = 3, nextPrimary returns 3 (the
sentinel wrap at len(config)+1 never fires for an in-range primaryID), not
the claimed (primaryID + 1) mod N = 0. -/
theorem nextPrimary_no_wrap :
    nextPrimary 2 3 = 3
    ∧ nextPrimary 2 3 ≠ ((2 : Int) + 1) % 3
    ∧ ((2 : Int) + 1) % 3 = 0
    ∧ nextPrimary 0 3 = 1
    ∧ nextPrimary 1 3 = 2 := by
  decide

/-- C5: viewNum is not monotone. A replica that moved to view 1 via
StartViewChange and then receives a StartView message carrying ViewNum = 0
(the handler never compares views) has its viewNum decreased from 1 to 0. -/
theorem startView_view_decrease :
    (((NewReplica 1 3 0).StartViewChange { ViewNum := 1, ReplicaID := 2 } 1).1.viewNum = 1)
    ∧ ((((NewReplica 1 3 0).StartViewChange { ViewNum := 1, ReplicaID := 2 } 1).1.StartView
          { ViewNum := 0, OpLog := [], OpNum := 0, PrimaryID := 0 }).1.viewNum = 0) := by
  decide

/-- C6: commitNum is not monotone. Replica 0 commits one operation as
primary (commitNum = 1), is moved to view 3 by StartViewChange, and then
counts three DoViewChange messages none of which carries CommitNum ≥ 1;
tempCommitNum keeps its zero value, and the quorum branch adopts it,
dropping commitNum from 1 back to 0. -/
theorem doViewChange_commit_decrease :
    (((NewReplica 0 3 0).Submit { clientID := 1, reqNum := 1, reqOp := 7 }
        [true, true]).1.commitNum = 1)
    ∧ (((((((NewReplica 0 3 0).Submit { clientID := 1, reqNum := 1, reqOp := 7 }
          [true, true]).1.StartViewChange { ViewNum := 3, ReplicaID := 1 } 1).1.DoViewChange
          { ViewNum := 3, OldViewNum := 0, CommitNum := 0, OpNum := 0, OpLog := [] } 2).1.DoViewChange
          { ViewNum := 3, OldViewNum := 0, CommitNum := 0, OpNum := 0, OpLog := [] } 3).1.DoViewChange
          { ViewNum := 3, OldViewNum := 0, CommitNum := 0, OpNum := 0, OpLog := [] } 4).1.commitNum
        = 0) := by
  decide

/-- C2 counterexample: a Dead replica drops a same-view Prepare with an
opNum gap without transitioning to Recovery, so the claim quantified over
every replica state fails. -/
theorem prepare_dead_not_recovery :
    (((NewReplica 1 3 0).Stop.Prepare
        { ViewNum := 0, OpNum := 5, CommitNum := 0,
          ClientMessage := { clientID := 1, reqNum := 1, reqOp := 7 } } 1).1.status
      = .Dead)
    ∧ (NewReplica 1 3 0).Stop.viewNum = 0
    ∧ ReplicaStatus.Dead ≠ ReplicaStatus.Recovery := by
  decide

/-- C2 (amended): on every non-Dead replica, a Prepare of the current view
with args.OpNum ≠ opNum + 1 only sets status to Recovery (no append, no
reply); with args.OpNum = opNum + 1 it refreshes viewChangeResetEvent,
increments opNum, appends one entry with the request operation, updates the
client table and replies IsReplied = true. A Prepare with a different view
never appends a log entry, on any replica. -/
theorem prepare_same_view (r : Replica) (args : PrepareArgs) (now : Int) :
    (r.status ≠ .Dead → args.ViewNum = r.viewNum →
      ((args.OpNum ≠ r.opNum + 1 →
          (r.Prepare args now).1 = { r with status := .Recovery }
          ∧ (r.Prepare args now).2.IsReplied = false)
       ∧ (args.OpNum = r.opNum + 1 →
          (r.Prepare args now).1
            = { r with
                  viewChangeResetEvent := now
                  opNum := r.opNum + 1
                  opLog := r.opLog ++ [{ opID := (r.opLog.length : Int),
                                         operation := args.ClientMessage.reqOp }]
                  clientTable := ctInsert r.clientTable args.ClientMessage.clientID
                    { reqNum := args.ClientMessage.reqNum,
                      reqOp := args.ClientMessage.reqOp } }
          ∧ (r.Prepare args now).2.IsReplied = true)))
    ∧ (args.ViewNum ≠ r.viewNum → (r.Prepare args now).1.opLog = r.opLog) := by
  constructor
  · intro hd hv
    constructor
    · intro hgap
      unfold Replica.Prepare
      rw [if_neg hd, if_neg (by omega), if_pos (by omega),
          if_pos (by omega : r.opNum ≠ args.OpNum - 1)]
      exact ⟨rfl, rfl⟩
    · intro hok
      unfold Replica.Prepare
      rw [if_neg hd, if_neg (by omega), if_pos (by omega),
          if_neg (not_not_intro (by omega : r.opNum = args.OpNum - 1))]
      exact ⟨rfl, rfl⟩
  · intro hne
    unfold Replica.Prepare
    split
    · rfl
    · split
      · rfl
      · rw [if_neg (fun h : r.viewNum = args.ViewNum => hne h.symm)]

/-- Replica of the S5 scenario: in view 0 at opNum 2 with two logged
operations. -/
def s5Replica : Replica :=
  { NewReplica 1 3 0 with
      opNum := 2
      opLog := [{ opID := 0, operation := 7 }, { opID := 1, operation := 8 }] }

/-- Prepare message of the S5 scenario: same view, op 4 against local op 2. -/
def s5GapArgs : PrepareArgs :=
  { ViewNum := 0
    OpNum := 4
    CommitNum := 0
    ClientMessage := { clientID := 1, reqNum := 1, reqOp := 9 } }

/-- The strictly consecutive variant of the S5 message (op 3). -/
def s5OkArgs : PrepareArgs :=
  { s5GapArgs with OpNum := 3 }

/-- Witness for C2: the S5 gap scenario (opNum 2, Prepare carrying op 4
moves the replica to Recovery without appending) and the consecutive
accept. -/
theorem prepare_same_view_witness :
    (s5Replica.Prepare s5GapArgs 5).1.status = .Recovery
    ∧ (s5Replica.Prepare s5GapArgs 5).1.opLog = s5Replica.opLog
    ∧ (s5Replica.Prepare s5OkArgs 5).2.IsReplied = true := by
  have h4 := prepare_same_view s5Replica s5GapArgs 5
  have h3 := prepare_same_view s5Replica s5OkArgs 5
  have hgap := (h4.1 (by decide) (by decide)).1 (by decide)
  have hok := (h3.1 (by decide) (by decide)).2 (by decide)
  refine ⟨?_, ?_, hok.2⟩
  · rw [hgap.1]
  · rw [hgap.1]

/-- C3: Submit accepts exactly when the replica is a Normal primary and the
request number is fresh; on accept it appends the operation, increments
opNum and records the request in the client table; on reject the replica
state is unchanged. -/
theorem submit_accept_iff (r : Replica) (req : ClientRequest) (replies : List Bool) :
    ((r.Submit req replies).2.1 = true ↔
        r.status = .Normal ∧ r.ID = r.primaryID
          ∧ req.reqNum > (ctLookup r.clientTable req.clientID).reqNum)
    ∧ ((r.Submit req replies).2.1 = true →
        (r.Submit req replies).1.opLog
            = r.opLog ++ [{ opID := (r.opLog.length : Int), operation := req.reqOp }]
        ∧ (r.Submit req replies).1.opNum = r.opNum + 1
        ∧ (r.Submit req replies).1.clientTable
            = ctInsert r.clientTable req.clientID
                { reqNum := req.reqNum, reqOp := req.reqOp })
    ∧ ((r.Submit req replies).2.1 = false → (r.Submit req replies).1 = r) := by
  unfold Replica.Submit
  by_cases h1 : r.ID ≠ r.primaryID
  · rw [if_pos h1]
    exact ⟨⟨(fun h => absurd h (by simp)), fun h => absurd h.2.1 h1⟩,
           (fun h => absurd h (by simp)), fun _ => rfl⟩
  · rw [if_neg h1]
    by_cases h2 : r.status ≠ ReplicaStatus.Normal
    · rw [if_pos h2]
      exact ⟨⟨(fun h => absurd h (by simp)), fun h => absurd h.1 h2⟩,
             (fun h => absurd h (by simp)), fun _ => rfl⟩
    · rw [if_neg h2]
      by_cases h3 : req.reqNum ≤ (ctLookup r.clientTable req.clientID).reqNum
      · rw [if_pos h3]
        exact ⟨⟨(fun h => absurd h (by simp)), fun h => absurd h.2.2 (not_lt.mpr h3)⟩,
               (fun h => absurd h (by simp)), fun _ => rfl⟩
      · rw [if_neg h3]
        refine ⟨⟨fun _ => ⟨not_not.mp h2, not_not.mp h1, not_le.mp h3⟩, fun _ => rfl⟩,
                ?_, ?_⟩
        · intro _
          rcases primaryBlastPrepare_replica_cases (submitAccept r req) req replies with
            hcase | hcase
          · rw [hcase]
            exact ⟨rfl, rfl, rfl⟩
          · rw [hcase]
            exact ⟨rfl, rfl, rfl⟩
        · intro hcontra
          exact absurd hcontra (by simp)

/-- Witness for C3: the S1 request is accepted by the fresh primary and
appended; a duplicate request number is rejected with no state change. -/
theorem submit_accept_iff_witness :
    ((NewReplica 0 3 0).Submit { clientID := 1, reqNum := 1, reqOp := 7 } []).2.1 = true := by
  exact (submit_accept_iff (NewReplica 0 3 0)
    { clientID := 1, reqNum := 1, reqOp := 7 } []).1.mpr (by decide)

/-- C1 counterexample: with N = 3 and three IsReplied = true replies, the
quorum latch is set at the second reply and the third true reply does NOT
increment the counter (the source guards the increment with
!commitedAlready), so the counter ends at 3, not at 1 + 3 as the claim
states for every IsReplied = true reply. -/
theorem blast_counter_not_always_incremented :
    (primaryBlastPrepareS (NewReplica 0 3 0) { clientID := 1, reqNum := 1, reqOp := 7 }
        [true, true, true]).count = 3
    ∧ (3 : Int) ≠ 1 + countTrue [true, true, true]
    ∧ (primaryBlastPrepareS (NewReplica 0 3 0) { clientID := 1, reqNum := 1, reqOp := 7 }
        [true, true, true]).commitedAlready = true := by
  decide

/-- C1 (amended): the counter is incremented for every IsReplied = true
reply that arrives while the commitedAlready latch is clear; the latch is
set exactly when some true reply pushes the count across 2*count > N + 1
(that is, when at least one true reply arrives and 2*(1 + T) > N + 1 for T
the number of true replies); at that single crossing the primary advances
commitNum by exactly 1 and emits exactly one CommitEntry whose CommitNum is
the pre-advance commit number saved at send time; no second CommitEntry is
ever emitted for the same broadcast, and replies after the latch leave the
counter unchanged. -/
theorem primaryBlastPrepare_quorum (r : Replica) (req : ClientRequest)
    (replies : List Bool) :
    ((primaryBlastPrepareS r req replies).commitedAlready = true ↔
        1 ≤ countTrue replies ∧ 2 * (1 + countTrue replies) > (r.N : Int) + 1)
    ∧ ((primaryBlastPrepareS r req replies).commitedAlready = true →
        (primaryBlastPrepareS r req replies).replica
            = { r with commitNum := r.commitNum + 1 }
        ∧ (primaryBlastPrepareS r req replies).emitted
            = [{ ViewNum := r.viewNum, OpNum := r.opNum, CommitNum := r.commitNum,
                 ClientReq := req, Resp := none }])
    ∧ ((primaryBlastPrepareS r req replies).commitedAlready = false →
        (primaryBlastPrepareS r req replies).replica = r
        ∧ (primaryBlastPrepareS r req replies).emitted = []
        ∧ (primaryBlastPrepareS r req replies).count = 1 + countTrue replies)
    ∧ (primaryBlastPrepareS r req replies).emitted.length ≤ 1 := by
  have h := primaryBlastPrepareS_inv r req replies
  refine ⟨h.2.1, h.2.2.2, h.2.2.1, ?_⟩
  cases hC : (primaryBlastPrepareS r req replies).commitedAlready with
  | false =>
    rw [(h.2.2.1 hC).2.1]
    simp
  | true =>
    rw [(h.2.2.2 hC).2]
    simp

/-- Witness for C1: the S1 broadcast (N = 3, both peers reply) sets the
latch, advances commitNum to 1 and emits one CommitEntry with CommitNum 0. -/
theorem primaryBlastPrepare_quorum_witness :
    (primaryBlastPrepareS (NewReplica 0 3 0) { clientID := 1, reqNum := 1, reqOp := 7 }
        [true, true]).commitedAlready = true
    ∧ (primaryBlastPrepareS (NewReplica 0 3 0) { clientID := 1, reqNum := 1, reqOp := 7 }
        [true, true]).emitted
      = [{ ViewNum := 0, OpNum := 0, CommitNum := 0,
           ClientReq := { clientID := 1, reqNum := 1, reqOp := 7 }, Resp := none }] := by
  have h := primaryBlastPrepare_quorum (NewReplica 0 3 0)
    { clientID := 1, reqNum := 1, reqOp := 7 } [true, true]
  have hc := h.1.mpr (by decide)
  exact ⟨hc, (h.2.1 hc).2⟩

/-- C4 counterexample: the aggregation does not pick the message with the
largest oldViewNum (breaking ties by opNum), nor the maximal commit number.
Replica 1 (view 0, oldViewNum -1, empty log) receives m1 with
(oldViewNum 5, op 2, commit 5) and then twice m2 with
(oldViewNum 0, op 1, commit 3); each qualifying message overwrites the
temps, so the quorum adopts the log of the LAST qualifying message m2 and
commit 3, not the log of m1 and the maximum 5; the handler also finishes in
status StartView, not Normal. -/
theorem doViewChange_last_writer_wins :
    ((((NewReplica 1 3 0).DoViewChange
          { ViewNum := 0, OldViewNum := 5, CommitNum := 5, OpNum := 2,
            OpLog := [{ opID := 0, operation := 10 }, { opID := 1, operation := 11 }] }
          1).1.DoViewChange
          { ViewNum := 0, OldViewNum := 0, CommitNum := 3, OpNum := 1,
            OpLog := [{ opID := 0, operation := 12 }] } 2).1.DoViewChange
          { ViewNum := 0, OldViewNum := 0, CommitNum := 3, OpNum := 1,
            OpLog := [{ opID := 0, operation := 12 }] } 3).1.opLog
        = [{ opID := 0, operation := 12 }]
    ∧ ((((NewReplica 1 3 0).DoViewChange
          { ViewNum := 0, OldViewNum := 5, CommitNum := 5, OpNum := 2,
            OpLog := [{ opID := 0, operation := 10 }, { opID := 1, operation := 11 }] }
          1).1.DoViewChange
          { ViewNum := 0, OldViewNum := 0, CommitNum := 3, OpNum := 1,
            OpLog := [{ opID := 0, operation := 12 }] } 2).1.DoViewChange
          { ViewNum := 0, OldViewNum := 0, CommitNum := 3, OpNum := 1,
            OpLog := [{ opID := 0, operation := 12 }] } 3).1.commitNum = 3
    ∧ [{ opID := 0, operation := 12 }]
        ≠ [({ opID := 0, operation := 10 } : OpLogEntry), { opID := 1, operation := 11 }]
    ∧ (3 : Int) ≠ 5
    ∧ ((((NewReplica 1 3 0).DoViewChange
          { ViewNum := 0, OldViewNum := 5, CommitNum := 5, OpNum := 2,
            OpLog := [{ opID := 0, operation := 10 }, { opID := 1, operation := 11 }] }
          1).1.DoViewChange
          { ViewNum := 0, OldViewNum := 0, CommitNum := 3, OpNum := 1,
            OpLog := [{ opID := 0, operation := 12 }] } 2).1.DoViewChange
          { ViewNum := 0, OldViewNum := 0, CommitNum := 3, OpNum := 1,
            OpLog := [{ opID := 0, operation := 12 }] } 3).1.status
        = .StartView := by
  decide

/-- C4 (amended): when a DoViewChange of the current view pushes the count
across N/2 + 1 on a non-Dead replica whose status is not StartView, the
handler adopts the temp values into live state and sets primaryID to the
own ID, ending in status StartView (it passes through Normal inside the
handler). The temps hold the data of the LAST received message whose
oldViewNum was ≥ the replica own oldViewNum and whose opNum exceeded the
replica own opNum (with tempOpNum set to the length of that message log),
and the commit number of the last message whose commit was ≥ the replica
own commitNum; in the S4 shape, where the quorum-crossing message itself
carries the longer log, that log is adopted. -/
theorem doViewChange_quorum_adopt (r : Replica) (args : DoViewChangeArgs)
    (now : Int) (hd : r.status ≠ .Dead) (hs : r.status ≠ .StartView)
    (hv : args.ViewNum = r.viewNum)
    (hq : r.doViewChangeCount + 1 > ((r.N / 2 : Nat) : Int) + 1) :
    (r.DoViewChange args now).1.primaryID = r.ID
    ∧ (r.DoViewChange args now).1.status = .StartView
    ∧ (r.DoViewChange args now).1.doViewChangeCount = r.doViewChangeCount + 1
    ∧ (args.OldViewNum ≥ r.oldViewNum → args.OpNum > r.opNum →
        (r.DoViewChange args now).1.opLog = args.OpLog
        ∧ (r.DoViewChange args now).1.opNum = (args.OpLog.length : Int)
        ∧ (r.DoViewChange args now).1.viewNum = args.ViewNum)
    ∧ (¬ (args.OldViewNum ≥ r.oldViewNum ∧ args.OpNum > r.opNum) →
        (r.DoViewChange args now).1.opLog = r.tempOpLog
        ∧ (r.DoViewChange args now).1.opNum = r.tempOpNum
        ∧ (r.DoViewChange args now).1.viewNum = r.tempViewNum)
    ∧ (args.CommitNum ≥ r.commitNum →
        (r.DoViewChange args now).1.commitNum = args.CommitNum)
    ∧ (¬ args.CommitNum ≥ r.commitNum →
        (r.DoViewChange args now).1.commitNum = r.tempCommitNum) := by
  unfold Replica.DoViewChange
  rw [if_neg hd]
  unfold dvcQuorumCheck dvcAggregate
  rw [if_pos hv]
  rw [if_pos (⟨hq, hs⟩ :
    ({ r with
        doViewChangeCount := r.doViewChangeCount + 1
        tempViewNum :=
          if args.OldViewNum ≥ r.oldViewNum ∧ args.OpNum > r.opNum then args.ViewNum
          else r.tempViewNum
        tempOpNum :=
          if args.OldViewNum ≥ r.oldViewNum ∧ args.OpNum > r.opNum then
            (args.OpLog.length : Int)
          else r.tempOpNum
        tempOpLog :=
          if args.OldViewNum ≥ r.oldViewNum ∧ args.OpNum > r.opNum then args.OpLog
          else r.tempOpLog
        tempCommitNum :=
          if args.CommitNum ≥ r.commitNum then args.CommitNum
          else r.tempCommitNum } : Replica).doViewChangeCount
        > ((r.N / 2 : Nat) : Int) + 1
      ∧ ({ r with
            doViewChangeCount := r.doViewChangeCount + 1
            tempViewNum :=
              if args.OldViewNum ≥ r.oldViewNum ∧ args.OpNum > r.opNum then args.ViewNum
              else r.tempViewNum
            tempOpNum :=
              if args.OldViewNum ≥ r.oldViewNum ∧ args.OpNum > r.opNum then
                (args.OpLog.length : Int)
              else r.tempOpNum
            tempOpLog :=
              if args.OldViewNum ≥ r.oldViewNum ∧ args.OpNum > r.opNum then args.OpLog
              else r.tempOpLog
            tempCommitNum :=
              if args.CommitNum ≥ r.commitNum then args.CommitNum
              else r.tempCommitNum } : Replica).status ≠ .StartView)]
  refine ⟨rfl, rfl, rfl, ?_, ?_, ?_, ?_⟩
  · intro h1 h2
    refine ⟨?_, ?_, ?_⟩ <;>
      · show (if args.OldViewNum ≥ r.oldViewNum ∧ args.OpNum > r.opNum then _ else _) = _
        rw [if_pos ⟨h1, h2⟩]
  · intro hno
    refine ⟨?_, ?_, ?_⟩ <;>
      · show (if args.OldViewNum ≥ r.oldViewNum ∧ args.OpNum > r.opNum then _ else _) = _
        rw [if_neg hno]
  · intro hc
    show (if args.CommitNum ≥ r.commitNum then _ else _) = _
    rw [if_pos hc]
  · intro hc
    show (if args.CommitNum ≥ r.commitNum then _ else _) = _
    rw [if_neg hc]

/-- Replica 1 of the S4 scenario while counting DoViewChange messages for
view 1: log [a, b], opNum 2, two messages already counted. -/
def s4Replica : Replica :=
  { NewReplica 1 3 0 with
      viewNum := 1
      oldViewNum := 0
      opNum := 2
      opLog := [{ opID := 0, operation := 100 }, { opID := 1, operation := 101 }]
      doViewChangeCount := 2
      status := .DoViewChange }

/-- The S4 DoViewChange message from replica 2: the longer log [a, b, c]. -/
def s4Args : DoViewChangeArgs :=
  { ViewNum := 1
    OldViewNum := 0
    CommitNum := 0
    OpNum := 3
    OpLog := [{ opID := 0, operation := 100 }, { opID := 1, operation := 101 },
              { opID := 2, operation := 102 }] }

/-- Witness for C4: the S4 adoption; replica 1 adopts the longer log of
replica 2 and becomes the new primary entering StartView. -/
theorem doViewChange_quorum_adopt_witness :
    (s4Replica.DoViewChange s4Args 9).1.opLog = s4Args.OpLog
    ∧ (s4Replica.DoViewChange s4Args 9).1.opNum = 3
    ∧ (s4Replica.DoViewChange s4Args 9).1.status = .StartView
    ∧ (s4Replica.DoViewChange s4Args 9).1.primaryID = 1 := by
  have h := doViewChange_quorum_adopt s4Replica s4Args 9
    (by decide) (by decide) (by decide) (by decide)
  have hado := h.2.2.2.1 (by decide) (by decide)
  refine ⟨hado.1, ?_, h.2.1, h.1⟩
  rw [hado.2.1]
  decide

/-- C7 counterexample: commitNum ≤ opNum = len(log) holds initially but is
not preserved by every step for all message arguments. (a) A StartView
message with OpNum = 5 and an empty log breaks opNum = len(log) in one step
from the initial state. (b) A StartView with a consistent but shorter state
(OpNum 0, empty log) received by a primary with commitNum 1 breaks
commitNum ≤ opNum. (c) A DoViewChange quorum on a primary with
(opNum, commitNum) = (1, 1), fed messages with commit 1 but opNum not above
the local one, adopts tempOpNum = 0 while taking commitNum 1, breaking
commitNum ≤ opNum. -/
theorem replicaInv_broken_by_adoption :
    (replicaInv (NewReplica 1 3 0)
      ∧ ¬ replicaInv ((NewReplica 1 3 0).StartView
            { ViewNum := 0, OpLog := [], OpNum := 5, PrimaryID := 0 }).1)
    ∧ (replicaInv ((NewReplica 0 3 0).Submit { clientID := 1, reqNum := 1, reqOp := 7 }
          [true, true]).1
      ∧ ¬ replicaInv (((NewReplica 0 3 0).Submit { clientID := 1, reqNum := 1, reqOp := 7 }
          [true, true]).1.StartView
            { ViewNum := 1, OpLog := [], OpNum := 0, PrimaryID := 1 }).1)
    ∧ (replicaInv (((NewReplica 0 3 0).Submit { clientID := 1, reqNum := 1, reqOp := 7 }
          [true, true]).1.StartViewChange { ViewNum := 1, ReplicaID := 1 } 1).1
      ∧ ¬ replicaInv ((((((NewReplica 0 3 0).Submit
            { clientID := 1, reqNum := 1, reqOp := 7 }
            [true, true]).1.StartViewChange { ViewNum := 1, ReplicaID := 1 } 1).1.DoViewChange
            { ViewNum := 1, OldViewNum := 0, CommitNum := 1, OpNum := 1,
              OpLog := [{ opID := 0, operation := 7 }] } 2).1.DoViewChange
            { ViewNum := 1, OldViewNum := 0, CommitNum := 1, OpNum := 1,
              OpLog := [{ opID := 0, operation := 7 }] } 3).1.DoViewChange
            { ViewNum := 1, OldViewNum := 0, CommitNum := 1, OpNum := 1,
              OpLog := [{ opID := 0, operation := 7 }] } 4).1) := by
  decide

/-- C7 (amended): commitNum ≤ opNum = len(log) holds in the initial state
and is preserved by Submit (with its Prepare broadcast), Prepare, Commit,
StartViewChange, the timer transitions (initiateViewChange,
initiateDoViewChange, initiateStartView, sendDoViewChange) and Stop, and by
StartView whenever the message is consistent (args.OpNum = len(args.OpLog))
and does not truncate below the local commit number
(commitNum ≤ args.OpNum); it is not preserved by StartView or the
DoViewChange quorum adoption in general. -/
theorem replicaInv_preserved (id : Int) (n : Nat) (t0 : Int) (r : Replica)
    (h : replicaInv r) :
    replicaInv (NewReplica id n t0)
    ∧ (∀ (req : ClientRequest) (replies : List Bool),
        replicaInv (r.Submit req replies).1)
    ∧ (∀ (args : PrepareArgs) (now : Int), replicaInv (r.Prepare args now).1)
    ∧ (∀ (args : CommitArgs) (now : Int), replicaInv (r.Commit args now).1)
    ∧ (∀ (args : StartViewChangeArgs) (now : Int),
        replicaInv (r.StartViewChange args now).1)
    ∧ (∀ args : StartViewArgs, args.OpNum = (args.OpLog.length : Int) →
        r.commitNum ≤ args.OpNum → replicaInv (r.StartView args).1)
    ∧ (∀ now : Int, replicaInv (r.initiateViewChange now))
    ∧ (∀ now : Int, replicaInv (r.initiateDoViewChange now))
    ∧ (∀ now : Int, replicaInv (r.initiateStartView now))
    ∧ replicaInv r.sendDoViewChange
    ∧ replicaInv r.Stop := by
  obtain ⟨h1, h2⟩ := h
  refine ⟨⟨le_refl 0, rfl⟩, ?_, ?_, ?_, ?_, ?_, ?_, ?_, ?_, ?_, ?_⟩
  · intro req replies
    unfold Replica.Submit
    split
    · exact ⟨h1, h2⟩
    · split
      · exact ⟨h1, h2⟩
      · split
        · exact ⟨h1, h2⟩
        · rcases primaryBlastPrepare_replica_cases (submitAccept r req) req replies
            with hc | hc
          · rw [hc]
            refine ⟨?_, ?_⟩
            · show r.commitNum ≤ r.opNum + 1
              omega
            · show r.opNum + 1
                = (((r.opLog ++ [{ opID := (r.opLog.length : Int),
                                   operation := req.reqOp }] : List OpLogEntry)).length : Int)
              simp only [List.length_append, List.length_singleton]
              push_cast
              omega
          · rw [hc]
            refine ⟨?_, ?_⟩
            · show r.commitNum + 1 ≤ r.opNum + 1
              omega
            · show r.opNum + 1
                = (((r.opLog ++ [{ opID := (r.opLog.length : Int),
                                   operation := req.reqOp }] : List OpLogEntry)).length : Int)
              simp only [List.length_append, List.length_singleton]
              push_cast
              omega
  · intro args now
    unfold Replica.Prepare
    split
    · exact ⟨h1, h2⟩
    · split
      · exact ⟨h1, h2⟩
      · split
        · split
          · exact ⟨h1, h2⟩
          · refine ⟨?_, ?_⟩
            · show r.commitNum ≤ r.opNum + 1
              omega
            · show r.opNum + 1
                = (((r.opLog ++ [{ opID := (r.opLog.length : Int),
                                   operation := args.ClientMessage.reqOp }] : List OpLogEntry)).length : Int)
              simp only [List.length_append, List.length_singleton]
              push_cast
              omega
        · exact ⟨h1, h2⟩
  · intro args now
    unfold Replica.Commit
    split
    · exact ⟨h1, h2⟩
    · exact ⟨h1, h2⟩
  · intro args now
    unfold Replica.StartViewChange
    split
    · exact ⟨h1, h2⟩
    · split
      · exact ⟨h1, h2⟩
      · split
        · exact ⟨h1, h2⟩
        · exact ⟨h1, h2⟩
  · intro args hlen hcm
    unfold Replica.StartView
    split
    · exact ⟨h1, h2⟩
    · exact ⟨hcm, hlen⟩
  · intro now
    exact ⟨h1, h2⟩
  · intro now
    exact ⟨h1, h2⟩
  · intro now
    exact ⟨h1, h2⟩
  · unfold Replica.sendDoViewChange
    split
    · exact ⟨h1, h2⟩
    · exact ⟨h1, h2⟩
  · exact ⟨h1, h2⟩

/-- Witness for C7: the invariant is preserved over the S1 Submit at the
initial primary. -/
theorem replicaInv_preserved_witness :
    replicaInv ((NewReplica 0 3 0).Submit { clientID := 1, reqNum := 1, reqOp := 7 }
      [true, true]).1 := by
  exact (replicaInv_preserved 0 3 0 (NewReplica 0 3 0) (by decide)).2.1
    { clientID := 1, reqNum := 1, reqOp := 7 } [true, true]

end VRR
